import Mathlib

/-
  Verification development for the fastener geometry-synthesis layer
  (screw_maker.py).  Numeric values computed by the program are modelled
  as rationals where every operation involved is rational, and as reals
  where the irrational constants sqrt(3) and cos(30 deg) enter.  Calls
  into the external B-rep kernel (sweeps, boolean fuses) are modelled by
  passing their observable outcomes as explicit arguments.
-/

namespace ScrewMaker

/-- Numeric value of a decimal digit character, as used when modelling
Python's float() conversion.  Only meaningful for digit characters. -/
def digitVal (c : Char) : ℕ := c.toNat - 48

/-- Accumulate a digit list into a natural number (base 10). -/
def parseNatDigits (cs : List Char) : ℕ :=
  cs.foldl (fun acc c => acc * 10 + digitVal c) 0

/-- Models Python float() on an unsigned decimal literal: digits with an
optional single decimal point ("10", "1.", ".5").  Returns none on any
other input, as float() raises ValueError there. -/
def parseUnsigned (cs : List Char) : Option ℚ :=
  let intPart := cs.takeWhile Char.isDigit
  let rest := cs.drop intPart.length
  match rest with
  | [] => if intPart.isEmpty then none else some ((parseNatDigits intPart : ℚ))
  | c :: frac =>
    if c = '.' && frac.all Char.isDigit && !(intPart.isEmpty && frac.isEmpty) then
      some ((parseNatDigits intPart : ℚ) + (parseNatDigits frac : ℚ) / (10 : ℚ) ^ frac.length)
    else none

/-- Models Python float() on a plain decimal literal with optional sign
(the only forms getLength feeds it). -/
def parseFloatChars (cs : List Char) : Option ℚ :=
  match cs with
  | [] => none
  | c :: rest =>
    if c = '-' then (parseUnsigned rest).map (fun q => -q)
    else if c = '+' then parseUnsigned rest
    else parseUnsigned cs

/-- Models the Python substring test (pat in s) on character lists. -/
def listContainsSub (pat : List Char) : List Char → Bool
  | [] => pat.isEmpty
  | c :: rest => pat.isPrefixOf (c :: rest) || listContainsSub pat rest

/-- Models Python str.strip(chars): removes leading and trailing
characters that belong to the given set. -/
def stripChars (cutset : List Char) (cs : List Char) : List Char :=
  ((cs.dropWhile (fun c => cutset.contains c)).reverse.dropWhile
    (fun c => cutset.contains c)).reverse

/-- Models Python str.split(sep) for a single-character separator:
splits at every occurrence, keeping empty pieces. -/
def splitOnChar (sep : Char) : List Char → List (List Char)
  | [] => [[]]
  | c :: rest =>
    if c = sep then [] :: splitOnChar sep rest
    else
      match splitOnChar sep rest with
      | [] => [[c]]
      | g :: gs => (c :: g) :: gs

/-- One space-separated component of an imperial length expression:
either a '/'-separated fraction (float(subcmpts[0]) / float(subcmpts[1]))
or a plain decimal.  Division by zero is modelled as failure. -/
def parseLenItem (item : List Char) : Option ℚ :=
  if listContainsSub ['/'] item then
    match splitOnChar '/' item with
    | a :: b :: _ =>
      match parseFloatChars a, parseFloatChars b with
      | some x, some y => if y = 0 then none else some (x / y)
      | _, _ => none
    | _ => none
  else parseFloatChars item

/-- The argument of Screw.getLength: washers and nuts pass a Python int,
screws pass a string. -/
inductive LenArg where
  | int (n : ℤ)
  | str (s : String)

/-- Screw.getLength: an int argument is returned unchanged; a string
without the substring "in" is parsed as a plain decimal; a string with
"in" is stripped of the characters i and n at both ends, split on
spaces, each component summed (fractions via '/'), and the total is
multiplied by 25.4. -/
def getLength : LenArg → Option ℚ
  | LenArg.int n => some ((n : ℚ))
  | LenArg.str s =>
    let cs := s.toList
    if !(listContainsSub ['i', 'n'] cs) then
      parseFloatChars cs
    else
      let components := splitOnChar ' ' (stripChars ['i', 'n'] cs)
      match components.foldlM
          (fun total item => (parseLenItem item).map (fun v => total + v)) (0 : ℚ) with
      | some total => some (total * ((254 : ℚ) / 10))
      | none => none

/-- The helix and profile data computed by Screw.CreateThreadCutter
before sweeping: turn count, fillet radius, main-helix height and
radius, lead-out helix height and radius, and the thread profile points
(arc modelled by its mid and end points) after the downward translation
by the helix height. -/
structure ThreadCutterGeom where
  trotations : ℤ
  filletR : ℝ
  helixHeight : ℝ
  profile : List (ℝ × ℝ)
  mainHelixRadius : ℝ
  leadOutHeight : ℝ
  leadOutRadius : ℝ

/-- The numeric computation of Screw.CreateThreadCutter: turn count
blen // P + 1, helix height trotations * P, thread depth
H = sqrt(3)/2 * P, root fillet radius P * sqrt(3)/12, and the profile
polygon in the (radius, axial) plane. -/
noncomputable def threadCutterCalc (dia P blen : ℝ) : ThreadCutterGeom :=
  let H := Real.sqrt 3 / 2 * P
  let trotations : ℤ := ⌊blen / P⌋ + 1
  let fillet_r := P * Real.sqrt 3 / 12
  let helix_height := (trotations : ℝ) * P
  let dia2 := dia / 2
  let profile0 : List (ℝ × ℝ) :=
    [(dia2 + Real.sqrt 3 * 3 / 80 * P, -(0.475) * P),
     (dia2 - 0.625 * H, -1 * P / 8),
     (dia2 - 0.625 * H - 0.5 * fillet_r, 0),
     (dia2 - 0.625 * H, P / 8),
     (dia2 + Real.sqrt 3 * 3 / 80 * P, 0.475 * P)]
  { trotations := trotations
    filletR := fillet_r
    helixHeight := helix_height
    profile := profile0.map (fun q => (q.1, q.2 - helix_height))
    mainHelixRadius := dia / 2
    leadOutHeight := P / 2
    leadOutRadius := dia / 2 + 0.5 * (5 / 8 * H + 0.5 * fillet_r) }

/-- Screw.CreateThreadCutter with the external kernel's sweep readiness
modelled as an oracle indexed by attempt number: the code makes exactly
one pipe-shell sweep attempt; if it is not ready, a construction error
is raised and no geometry is produced. -/
noncomputable def CreateThreadCutter (dia P blen : ℝ) (sweepReady : ℕ → Bool) :
    Except String ThreadCutterGeom :=
  let geom := threadCutterCalc dia P blen
  if sweepReady 0 then Except.ok geom
  else Except.error ("Failed to create shell thread: could not sweep thread")

/-- The offset computation of Screw.makeShellthread: the effective
threaded length, the clamped cutter offset, the z translation applied
to the cutter (downward by toffset), and whether the cap branch guarded
by toffset < 0 is taken. -/
structure ShellThreadCalc where
  tlenEffective : ℚ
  toffset : ℚ
  cutterTranslationZ : ℚ
  capBranch : Bool
deriving DecidableEq

/-- Screw.makeShellthread, restricted to the cutter-placement
computation the claims are about: tlen := blen when tlen < 0;
toffset := blen - tlen + P/2 clamped from below by 5P/8; the swept
cutter is translated by (0, 0, -toffset); the cap branch runs only when
the clamped toffset is negative. -/
def makeShellthread (dia P blen : ℚ) (withcham : Bool) (ztop : ℚ) (tlen : ℚ) :
    ShellThreadCalc :=
  let tlen1 := if tlen < 0 then blen else tlen
  let toffset0 := blen - tlen1 + P / 2
  let minoffset := 5 * P / 8
  let toffset := if toffset0 < minoffset then minoffset else toffset0
  { tlenEffective := tlen1
    toffset := toffset
    cutterTranslationZ := -toffset
    capBranch := decide (toffset < 0) }

/-- Outcomes of the external boolean kernel during the nut branch of
Screw.makeInnerThread_2: the number of shapes the bottom general-fuse
maps, the face counts of the chamfer shell and of the top chamfer cut,
and the number of shapes the top general-fuse maps. -/
structure NutKernel where
  bottomMapLen : ℕ
  chamferShellFaceCount : ℕ
  topPartFaceCount : ℕ
  topMapLen : ℕ
deriving DecidableEq

/-- The fixed general-fuse tolerance of makeInnerThread_2. -/
def fuzzyValue : ℚ := 5 / 10000

/-- Control flow of Screw.makeInnerThread_2 over the kernel outcomes.
The second component logs the tolerance passed to each general-fuse
call, in order.  With da given (nut case) the function returns no
result exactly when a validation check fails; with da absent it builds
the screw-tap solid with no general-fuse. -/
def makeInnerThread_2 (d P : ℚ) (rotations : ℕ) (da : Option ℚ) (l : ℚ)
    (k : NutKernel) : Option Unit × List ℚ :=
  match da with
  | none => (some (), [])
  | some _ =>
    let fuseCalls1 : List ℚ := [fuzzyValue]
    if k.bottomMapLen < 2 then (none, fuseCalls1)
    else if k.topPartFaceCount > k.chamferShellFaceCount then (none, fuseCalls1)
    else
      let fuseCalls2 := fuseCalls1 ++ [fuzzyValue]
      if k.topMapLen < 2 then (none, fuseCalls2)
      else (some (), fuseCalls2)

/-- A parameter in a geometry-cache key: a number or a string. -/
inductive Param where
  | num (q : ℚ)
  | str (s : String)
deriving DecidableEq

/-- Modelled from the spec: the structural key FastenerBase.FSGetKey
derives from the operation name plus all parameters (FastenerBase is
not among the sources). -/
abbrev CacheKey := String × List Param

/-- A cached shape, abstracting the kernel geometry: the build counter
value at construction identifies the construction event, and the z
placement records where the shape was placed. -/
structure Shape where
  buildTag : ℕ
  placementZ : ℚ
deriving DecidableEq

/-- A geometry-cache entry: a single shape (chamfer cutter) or a
(solid, shell) pair (recess tools). -/
inductive CacheVal where
  | single (s : Shape)
  | pair (solid : Shape) (shell : Shape)
deriving DecidableEq

/-- Modelled from the spec: lookup in the process-wide geometry cache
FastenerBase.FSCache, a mapping from structural keys to shapes. -/
def cacheLookup : List (CacheKey × CacheVal) → CacheKey → Option CacheVal
  | [], _ => none
  | (k₂, v) :: rest, k => if k = k₂ then some v else cacheLookup rest k

/-- Modelled from the spec: the geometry cache together with a counter
of expensive constructions performed (the build paths of the factory
functions). -/
structure CacheState where
  cache : List (CacheKey × CacheVal)
  builds : ℕ
deriving DecidableEq

/-- Read a cache entry as a (solid, shell) pair.  A hit under a recess
tool key always holds a pair, since only the recess factories store
under those operation names. -/
def valAsPair : CacheVal → Shape × Shape
  | CacheVal.pair a b => (a, b)
  | CacheVal.single s => (s, s)

/-- Read a cache entry as a single shape.  A hit under the chamfer tool
key always holds a single shape. -/
def valAsSingle : CacheVal → Shape
  | CacheVal.single s => s
  | CacheVal.pair a _ => a

/-- Placement assignment: Shape.Placement.Base := (0, 0, z). -/
def setPlacementZ (sh : Shape) (z : ℚ) : Shape := { sh with placementZ := z }

/-- The structural key of Screw.makeAllen2. -/
def allen2Key (s_a t_a h_a t_2 : ℚ) : CacheKey :=
  (("Allen2Tool"), [Param.num s_a, Param.num t_a, Param.num h_a, Param.num t_2])

/-- Screw.makeAllen2, restricted to its cache control flow: on a hit
the cached pair is returned with its placement reset to height h_a and
nothing is rebuilt; on a miss the pair is built (placement h_a), cached
and returned. -/
def makeAllen2 (s_a t_a h_a t_2 : ℚ) (st : CacheState) :
    (Shape × Shape) × CacheState :=
  let key := allen2Key s_a t_a h_a t_2
  match cacheLookup st.cache key with
  | some res =>
    let p := valAsPair res
    ((setPlacementZ p.1 h_a, setPlacementZ p.2 h_a), st)
  | none =>
    let solidHex : Shape := { buildTag := st.builds, placementZ := h_a }
    let allenShell : Shape := { buildTag := st.builds, placementZ := h_a }
    ((solidHex, allenShell),
      { cache := (key, CacheVal.pair solidHex allenShell) :: st.cache,
        builds := st.builds + 1 })

/-- The structural key of Screw.makeIso10664_3. -/
def iso10664Key (RType : String) (t_hl h_hl : ℚ) : CacheKey :=
  (("HexalobularTool"), [Param.str RType, Param.num t_hl, Param.num h_hl])

/-- Screw.makeIso10664_3, restricted to its cache control flow: on a
hit the cached pair is returned as stored (its placement is the height
recorded in the key); on a miss the pair is built (placement h_hl),
cached and returned. -/
def makeIso10664_3 (RType : String) (t_hl h_hl : ℚ) (st : CacheState) :
    (Shape × Shape) × CacheState :=
  let key := iso10664Key RType t_hl h_hl
  match cacheLookup st.cache key with
  | some res => (valAsPair res, st)
  | none =>
    let Helo : Shape := { buildTag := st.builds, placementZ := h_hl }
    let hexlobShell : Shape := { buildTag := st.builds, placementZ := h_hl }
    ((Helo, hexlobShell),
      { cache := (key, CacheVal.pair Helo hexlobShell) :: st.cache,
        builds := st.builds + 1 })

/-- The structural key of Screw.cutChamfer (operation name as spelled
in the source). -/
def cutChamferKey (dia_cC P_cC l_cC : ℚ) : CacheKey :=
  (("CrhamferTool"), [Param.num dia_cC, Param.num P_cC, Param.num l_cC])

/-- Screw.cutChamfer, restricted to its cache control flow: the same
get-or-build pattern as the recess tools, storing a single revolved
shape. -/
def cutChamfer (dia_cC P_cC l_cC : ℚ) (st : CacheState) : Shape × CacheState :=
  let key := cutChamferKey dia_cC P_cC l_cC
  match cacheLookup st.cache key with
  | some res => (valAsSingle res, st)
  | none =>
    let cyl : Shape := { buildTag := st.builds, placementZ := 0 }
    (cyl, { cache := (key, CacheVal.single cyl) :: st.cache,
            builds := st.builds + 1 })

/-- The chamfer parameter of Screw.cutChamfer:
cham_t = P * sqrt(3) / 2 * 17 / 24. -/
noncomputable def chamT (P_cC : ℝ) : ℝ := P_cC * Real.sqrt 3 / 2 * 17 / 24

/-- The closed profile revolved by Screw.cutChamfer, as its vertex list
in the (radius, axial) plane. -/
noncomputable def cutChamferProfile (dia_cC P_cC l_cC : ℝ) : List (ℝ × ℝ) :=
  let cham_t := chamT P_cC
  let dia_cC2 := dia_cC / 2
  [(0, -l_cC),
   (dia_cC2 - cham_t, -l_cC),
   (dia_cC2 + cham_t, -l_cC + cham_t + cham_t),
   (dia_cC2 + cham_t, -l_cC - P_cC - cham_t),
   (0, -l_cC - P_cC - cham_t)]

/-- Largest element of a list of reals (0 for the empty list). -/
noncomputable def listMaxD : List ℝ → ℝ
  | [] => 0
  | x :: xs => xs.foldl max x

/-- Smallest element of a list of reals (0 for the empty list). -/
noncomputable def listMinD : List ℝ → ℝ
  | [] => 0
  | x :: xs => xs.foldl min x

/-- Axial (z) extent of a solid of revolution generated by a polygonal
profile in the (radius, axial) plane: the z-range of its vertices. -/
noncomputable def axialExtent (profile : List (ℝ × ℝ)) : ℝ :=
  listMaxD (profile.map Prod.snd) - listMinD (profile.map Prod.snd)

/-- The module constant cos30 = math.cos(math.radians(30)). -/
noncomputable def cos30 : ℝ := Real.cos (30 * Real.pi / 180)

/-- Screw.GetInnerThreadMinDiameter: dia - H * 5/4 + addEpsilon with
thread depth H = P * cos30. -/
noncomputable def GetInnerThreadMinDiameter (dia P addEpsilon : ℝ) : ℝ :=
  let H := P * cos30
  dia - H * 5 / 4 + addEpsilon

/-- Screw.GetInnerThreadMinDiameter at its default epsilon 0.001. -/
noncomputable def GetInnerThreadMinDiameterDefault (dia P : ℝ) : ℝ :=
  GetInnerThreadMinDiameter dia P (1 / 1000)

/-- C10: getLength applied to an integer argument (as washers and nuts
pass for their unused length attribute) returns it unchanged: no string
parsing and no inch conversion is applied. -/
theorem getLength_int_passthrough (n : ℤ) :
    getLength (LenArg.int n) = some ((n : ℚ)) := rfl

/-- C8: getLength parses "10" as the plain decimal 10.0; "1/2in" as
12.7 mm and "1 1/2in" as 38.1 mm, summing space-separated whole and
'/'-separated fractional terms and multiplying by 25.4. -/
theorem getLength_parsing_examples :
    getLength (LenArg.str ("10")) = some 10 ∧
    getLength (LenArg.str ("1/2in")) = some (127 / 10) ∧
    getLength (LenArg.str ("1 1/2in")) = some (381 / 10) := by
  refine ⟨?_, ?_, ?_⟩
  all_goals
    simp +decide [getLength, listContainsSub, stripChars, splitOnChar, parseLenItem,
      parseFloatChars, parseUnsigned, parseNatDigits, digitVal, List.foldlM]
  all_goals norm_num

/-- C1: for d > 0, P > 0 and P < blen, CreateThreadCutter computes turn
count floor(blen/P) + 1, its main helix height is that turn count times
P, and this axial extent is at least the requested body length. -/
theorem threadCutter_coverage (dia P blen : ℝ) (hd : 0 < dia) (hP : 0 < P)
    (hPb : P < blen) :
    (threadCutterCalc dia P blen).trotations = ⌊blen / P⌋ + 1 ∧
    (threadCutterCalc dia P blen).helixHeight = ((⌊blen / P⌋ : ℝ) + 1) * P ∧
    blen ≤ (threadCutterCalc dia P blen).helixHeight := by
  refine ⟨rfl, ?_, ?_⟩
  · show ((⌊blen / P⌋ + 1 : ℤ) : ℝ) * P = ((⌊blen / P⌋ : ℝ) + 1) * P
    push_cast
    ring
  · show blen ≤ ((⌊blen / P⌋ + 1 : ℤ) : ℝ) * P
    have h1 : blen / P < (⌊blen / P⌋ : ℝ) + 1 := Int.lt_floor_add_one _
    have h2 : blen = blen / P * P := by field_simp
    push_cast
    nlinarith

/-- Witness for C1 at dia = 6, P = 3/2, blen = 10. -/
theorem threadCutter_coverage_witness :
    (10 : ℝ) ≤ (threadCutterCalc 6 (3 / 2) 10).helixHeight :=
  (threadCutter_coverage 6 (3 / 2) 10 (by norm_num) (by norm_num) (by norm_num)).2.2

/-- C5: if the single pipe-shell sweep attempt of CreateThreadCutter is
not ready, the operation fails with a construction error, returns no
geometry, and its outcome depends only on that one attempt (no retry
with different parameters). -/
theorem threadCutter_sweep_fatal (dia P blen : ℝ) (o : ℕ → Bool) (h : o 0 = false) :
    CreateThreadCutter dia P blen o
        = Except.error ("Failed to create shell thread: could not sweep thread") ∧
    (∀ g, CreateThreadCutter dia P blen o ≠ Except.ok g) ∧
    (∀ o₂ : ℕ → Bool, o₂ 0 = o 0 →
      CreateThreadCutter dia P blen o₂ = CreateThreadCutter dia P blen o) := by
  refine ⟨by simp [CreateThreadCutter, h], ?_, ?_⟩
  · intro g
    simp [CreateThreadCutter, h]
  · intro o₂ h₂
    simp [CreateThreadCutter, h₂]

/-- Witness for C5 with a sweep that is never ready. -/
theorem threadCutter_sweep_fatal_witness :
    CreateThreadCutter 6 1 10 (fun _ => false)
      = Except.error ("Failed to create shell thread: could not sweep thread") :=
  (threadCutter_sweep_fatal 6 1 10 (fun _ => false) rfl).1

/-- C4: in makeShellthread, with tlen taken equal to blen when
tlen < 0, the thread cutter is translated downward (negative z) by an
axial offset equal to max(blen - tlen + P/2, 5P/8). -/
theorem shellthread_cutter_offset (dia P blen : ℚ) (withcham : Bool) (ztop tlen : ℚ)
    (hP : 0 < P) :
    (makeShellthread dia P blen withcham ztop tlen).tlenEffective
        = (if tlen < 0 then blen else tlen) ∧
    (makeShellthread dia P blen withcham ztop tlen).toffset
        = max (blen - (makeShellthread dia P blen withcham ztop tlen).tlenEffective + P / 2)
            (5 * P / 8) ∧
    (makeShellthread dia P blen withcham ztop tlen).cutterTranslationZ
        = -(makeShellthread dia P blen withcham ztop tlen).toffset := by
  refine ⟨rfl, ?_, rfl⟩
  show (if blen - (if tlen < 0 then blen else tlen) + P / 2 < 5 * P / 8 then 5 * P / 8
        else blen - (if tlen < 0 then blen else tlen) + P / 2)
      = max (blen - (if tlen < 0 then blen else tlen) + P / 2) (5 * P / 8)
  rcases lt_or_le (blen - (if tlen < 0 then blen else tlen) + P / 2) (5 * P / 8) with h | h
  · rw [if_pos h, max_eq_right (le_of_lt h)]
  · rw [if_neg (not_lt.mpr h), max_eq_left h]

/-- Witness for C4 at dia = 10, P = 2, blen = 20, tlen = 5. -/
theorem shellthread_cutter_offset_witness :
    (makeShellthread 10 2 20 true 0 5).toffset
      = max (20 - (makeShellthread 10 2 20 true 0 5).tlenEffective + 2 / 2) (5 * 2 / 8) :=
  (shellthread_cutter_offset 10 2 20 true 0 5 (by norm_num)).2.1

/-- C9: for every call of makeShellthread with P > 0, the clamped
cutter offset is at least 5P/8, hence positive, so the cap branch
guarded by toffset < 0 is never executed. -/
theorem shellthread_cap_branch_unreachable (dia P blen : ℚ) (withcham : Bool)
    (ztop tlen : ℚ) (hP : 0 < P) :
    5 * P / 8 ≤ (makeShellthread dia P blen withcham ztop tlen).toffset ∧
    0 < (makeShellthread dia P blen withcham ztop tlen).toffset ∧
    (makeShellthread dia P blen withcham ztop tlen).capBranch = false := by
  have h1 : 5 * P / 8 ≤ (makeShellthread dia P blen withcham ztop tlen).toffset := by
    show 5 * P / 8 ≤
      (if blen - (if tlen < 0 then blen else tlen) + P / 2 < 5 * P / 8 then 5 * P / 8
       else blen - (if tlen < 0 then blen else tlen) + P / 2)
    rcases lt_or_le (blen - (if tlen < 0 then blen else tlen) + P / 2) (5 * P / 8) with h | h
    · rw [if_pos h]
    · rw [if_neg (not_lt.mpr h)]
      exact h
  have h2 : 0 < (makeShellthread dia P blen withcham ztop tlen).toffset := by
    have : 0 < 5 * P / 8 := by linarith
    linarith
  refine ⟨h1, h2, ?_⟩
  show decide ((makeShellthread dia P blen withcham ztop tlen).toffset < 0) = false
  exact decide_eq_false (not_lt.mpr (le_of_lt h2))

/-- Witness for C9 at dia = 10, P = 2, blen = 20, tlen = 5. -/
theorem shellthread_cap_branch_unreachable_witness :
    (makeShellthread 10 2 20 true 0 5).capBranch = false :=
  (shellthread_cap_branch_unreachable 10 2 20 true 0 5 (by norm_num)).2.2

/-- C2: with boreDiameter given, makeInnerThread_2 returns no result
exactly when one of its validation checks fails (bottom general-fuse
maps fewer than two shapes, or the top chamfer cut has more faces than
the chamfer shell it cuts, or the top general-fuse maps fewer than two
shapes), and every general-fuse call uses the one fixed tolerance, at
most twice in a run: no retry with an adjusted tolerance. -/
theorem innerThread_nut_failure_iff (d P : ℚ) (rotations : ℕ) (dav l : ℚ)
    (k : NutKernel) :
    ((makeInnerThread_2 d P rotations (some dav) l k).1 = none ↔
      (k.bottomMapLen < 2 ∨ k.topPartFaceCount > k.chamferShellFaceCount ∨
        k.topMapLen < 2)) ∧
    ((makeInnerThread_2 d P rotations (some dav) l k).2 = [fuzzyValue] ∨
      (makeInnerThread_2 d P rotations (some dav) l k).2 = [fuzzyValue, fuzzyValue]) := by
  unfold makeInnerThread_2
  dsimp only
  split_ifs with h1 h2 h3 <;> simp_all

/-- C3: a repeated recess-tool factory call with an identical parameter
tuple finds the structural key in the cache: only the first call
performs the construction, the second returns the cached pair placed at
the requested height and leaves the state unchanged.  Shown for
makeAllen2 and makeIso10664_3. -/
theorem recess_cache_hit (s_a t_a h_a t_2 : ℚ) (RType : String) (t_hl h_hl : ℚ)
    (st su : CacheState)
    (hA : cacheLookup st.cache (allen2Key s_a t_a h_a t_2) = none)
    (hI : cacheLookup su.cache (iso10664Key RType t_hl h_hl) = none) :
    ((makeAllen2 s_a t_a h_a t_2 st).2.builds = st.builds + 1 ∧
     (makeAllen2 s_a t_a h_a t_2 ((makeAllen2 s_a t_a h_a t_2 st).2)).2
        = (makeAllen2 s_a t_a h_a t_2 st).2 ∧
     (makeAllen2 s_a t_a h_a t_2 ((makeAllen2 s_a t_a h_a t_2 st).2)).1
        = (makeAllen2 s_a t_a h_a t_2 st).1 ∧
     ((makeAllen2 s_a t_a h_a t_2 ((makeAllen2 s_a t_a h_a t_2 st).2)).1).1.placementZ = h_a ∧
     ((makeAllen2 s_a t_a h_a t_2 ((makeAllen2 s_a t_a h_a t_2 st).2)).1).2.placementZ = h_a) ∧
    ((makeIso10664_3 RType t_hl h_hl su).2.builds = su.builds + 1 ∧
     (makeIso10664_3 RType t_hl h_hl ((makeIso10664_3 RType t_hl h_hl su).2)).2
        = (makeIso10664_3 RType t_hl h_hl su).2 ∧
     (makeIso10664_3 RType t_hl h_hl ((makeIso10664_3 RType t_hl h_hl su).2)).1
        = (makeIso10664_3 RType t_hl h_hl su).1 ∧
     ((makeIso10664_3 RType t_hl h_hl ((makeIso10664_3 RType t_hl h_hl su).2)).1).1.placementZ
        = h_hl ∧
     ((makeIso10664_3 RType t_hl h_hl ((makeIso10664_3 RType t_hl h_hl su).2)).1).2.placementZ
        = h_hl) := by
  constructor
  · simp [makeAllen2, hA, cacheLookup, valAsPair, setPlacementZ]
  · simp [makeIso10664_3, hI, cacheLookup, valAsPair]

/-- Witness for C3: two identical makeAllen2 calls starting from the
empty cache; the second changes nothing. -/
theorem recess_cache_hit_witness :
    (makeAllen2 3 (3 / 2) 2 0 ((makeAllen2 3 (3 / 2) 2 0 (CacheState.mk [] 0)).2)).2
      = (makeAllen2 3 (3 / 2) 2 0 (CacheState.mk [] 0)).2 :=
  (recess_cache_hit 3 (3 / 2) 2 0 ("T20") 3 0 (CacheState.mk [] 0) (CacheState.mk [] 0)
    rfl rfl).1.2.1

/-- Helper for C6: for P > 0 the axial extent of the revolved chamfer
cutter profile is P + 3 * cham_t, not cham_t. -/
theorem cutChamferProfile_extent_eq (dia P l : ℝ) (hP : 0 < P) :
    axialExtent (cutChamferProfile dia P l) = P + 3 * chamT P := by
  have hs : 0 < Real.sqrt 3 := Real.sqrt_pos.mpr (by norm_num)
  have hc : 0 < chamT P := by
    unfold chamT
    nlinarith
  have hA : (-l : ℝ) ≤ -l + chamT P + chamT P := by linarith
  have hB : (-l - P - chamT P : ℝ) ≤ -l + chamT P + chamT P := by linarith
  have hD : (-l - P - chamT P : ℝ) ≤ -l := by linarith
  unfold axialExtent cutChamferProfile listMaxD listMinD
  dsimp only [List.map, List.foldl]
  rw [max_self, max_eq_right hA, max_eq_left hB, max_eq_left hB, min_self,
    min_eq_left hA, min_eq_right hD, min_self]
  ring

/-- C6 counterexample: at d = 10, P = 2, length = 5 the revolved
chamfer cutter's axial extent is not P * sqrt(3)/2 * 17/24 (it is
P + 3 times that quantity). -/
theorem cutChamfer_extent_counterexample :
    axialExtent (cutChamferProfile 10 2 5) ≠ chamT 2 := by
  have hs : 0 < Real.sqrt 3 := Real.sqrt_pos.mpr (by norm_num)
  have hc : 0 < chamT 2 := by
    unfold chamT
    nlinarith
  have he : axialExtent (cutChamferProfile 10 2 5) = 2 + 3 * chamT 2 :=
    cutChamferProfile_extent_eq 10 2 5 (by norm_num)
  intro hcontra
  rw [he] at hcontra
  nlinarith

/-- C6 (amended): cutChamfer computes the chamfer parameter
cham_t = P * sqrt(3)/2 * 17/24 in closed form; the revolved solid's
axial extent is P + 3 * cham_t; and the tool is cached under the key
("CrhamferTool", d, P, length) with the same get-or-build pattern as
the recess tools (second identical call returns the cached shape with
no further construction). -/
theorem cutChamfer_extent_and_cache (dia P l : ℝ) (hP : 0 < P)
    (dq Pq lq : ℚ) (st : CacheState)
    (hC : cacheLookup st.cache (cutChamferKey dq Pq lq) = none) :
    chamT P = P * Real.sqrt 3 / 2 * 17 / 24 ∧
    axialExtent (cutChamferProfile dia P l) = P + 3 * chamT P ∧
    (cutChamfer dq Pq lq st).2.builds = st.builds + 1 ∧
    (cutChamfer dq Pq lq ((cutChamfer dq Pq lq st).2)).2 = (cutChamfer dq Pq lq st).2 ∧
    (cutChamfer dq Pq lq ((cutChamfer dq Pq lq st).2)).1 = (cutChamfer dq Pq lq st).1 := by
  refine ⟨rfl, cutChamferProfile_extent_eq dia P l hP, ?_, ?_, ?_⟩ <;>
    simp [cutChamfer, hC, cacheLookup, valAsSingle]

/-- Witness for C6 (amended) at d = 10, P = 2, length = 5. -/
theorem cutChamfer_extent_and_cache_witness :
    axialExtent (cutChamferProfile 10 2 5) = 2 + 3 * chamT 2 :=
  (cutChamfer_extent_and_cache 10 2 5 (by norm_num) 10 2 5 (CacheState.mk [] 0) rfl).2.1

/-- C7: GetInnerThreadMinDiameter(dia, P, epsilon) is exactly
dia - (5/4) * H + epsilon with H = P * cos(30 deg), a pure function of
its arguments, with epsilon defaulting to 0.001. -/
theorem innerThreadMinDiameter_formula (dia P addEpsilon : ℝ) :
    GetInnerThreadMinDiameter dia P addEpsilon
        = dia - 5 / 4 * (P * Real.cos (Real.pi / 6)) + addEpsilon ∧
    GetInnerThreadMinDiameterDefault dia P
        = dia - 5 / 4 * (P * Real.cos (Real.pi / 6)) + 1 / 1000 := by
  have h : (30 : ℝ) * Real.pi / 180 = Real.pi / 6 := by ring
  constructor
  · unfold GetInnerThreadMinDiameter cos30
    rw [h]
    ring
  · unfold GetInnerThreadMinDiameterDefault GetInnerThreadMinDiameter cos30
    rw [h]
    ring

end ScrewMaker
